import Mathlib

/-!
Verification development for the MgmtBooking scheduling and
conflict-resolution engine.  The engine itself (conflict detection,
suggestion generation, waiting-list matching, compliance gating, mileage
ledger) is modelled here as a shallow embedding; times of day are minutes
since midnight (`Nat`), calendar days are ISO date strings compared for
equality, and maintenance expiry dates are explicit year/month/day
triples.
-/

namespace MgmtBooking

/-- Booking status. -/
inductive Status where
  | Scheduled
  | Completed
  | Cancelled
deriving DecidableEq, Repr

/-- Modelled from the spec: the Booking record (§3 data model; the
implementation's `index.html` booking objects are not in the repository).
`date` is the ISO date string, `startTime`/`endTime` are minutes since
midnight, completion odometer data is carried separately by the ledger. -/
structure Booking where
  id : String
  date : String
  startTime : Nat
  endTime : Nat
  customerId : String
  staffId : String
  resourceIds : List String
  serviceId : String
  status : Status
deriving DecidableEq, Repr

/-- Half-open interval overlap: `[s1,e1)` meets `[s2,e2)`. -/
def overlaps (s1 e1 s2 e2 : Nat) : Bool :=
  s1 < e2 && s2 < e1

/-- Modelled from the spec: the conflict predicate of §4.2 between a
candidate and one existing booking (the implementation's `findConflicts`
is not in the repository): same date, existing booking Scheduled, staff
match or resource-set intersection, half-open time overlap. -/
def conflictsWith (cand b : Booking) : Bool :=
  cand.date == b.date
    && b.status == Status.Scheduled
    && (cand.staffId == b.staffId
        || cand.resourceIds.any (fun r => b.resourceIds.contains r))
    && overlaps cand.startTime cand.endTime b.startTime b.endTime

/-- Modelled from the spec: `findConflicts(candidate, allBookings)`
returns all conflicting existing bookings (§4.2). -/
def findConflicts (cand : Booking) (allBookings : List Booking) : List Booking :=
  allBookings.filter (fun b => conflictsWith cand b)

/-- Membership in `findConflicts`, unfolded to the spec's four conditions. -/
theorem mem_findConflicts_iff (cand b : Booking) (l : List Booking) :
    b ∈ findConflicts cand l ↔
      b ∈ l ∧ cand.date = b.date ∧ b.status = Status.Scheduled ∧
        (cand.staffId = b.staffId ∨
          ∃ r, r ∈ cand.resourceIds ∧ r ∈ b.resourceIds) ∧
        cand.startTime < b.endTime ∧ b.startTime < cand.endTime := by
  simp only [findConflicts, List.mem_filter, conflictsWith, overlaps,
    Bool.and_eq_true, Bool.or_eq_true, beq_iff_eq, List.any_eq_true,
    List.contains, List.elem_iff, decide_eq_true_eq, and_assoc]

/-- A calendar date as a year/month/day triple (maintenance expiry dates
such as `2024-01-01` are embedded already parsed). -/
structure DateT where
  year : Nat
  month : Nat
  day : Nat
deriving DecidableEq, Repr

/-- Strict calendar order on dates (lexicographic year, month, day). -/
def dateLt (a b : DateT) : Bool :=
  a.year < b.year
    || (a.year == b.year
        && (a.month < b.month || (a.month == b.month && a.day < b.day)))

/-- Resource type. -/
inductive RType where
  | VEHICLE
  | OTHER
deriving DecidableEq, Repr

/-- One named maintenance check; `date = none` embeds an empty /
not-applicable expiry field ("not tracked"). -/
structure MaintCheck where
  name : String
  date : Option DateT
deriving DecidableEq, Repr

/-- Modelled from the spec: the Resource record (§3; the implementation's
resource objects in `index.html` are not in the repository).  `mileage`
is the vehicle's current odometer reading. -/
structure Resource where
  id : String
  rname : String
  rtype : RType
  maintenance : List MaintCheck
  mileage : Nat
deriving DecidableEq, Repr

/-- One maintenance check is expired iff it carries a non-empty date
strictly before `today`; an empty date is "not tracked". -/
def checkExpired (c : MaintCheck) (today : DateT) : Bool :=
  match c.date with
  | none => false
  | some d => dateLt d today

/-- Modelled from the spec: `computeCompliance(resource, today)` (§4.1;
the implementation's `updateVehicleComplianceStatus` is not in the
repository).  Non-vehicles are always compliant; a vehicle is
non-compliant iff some maintenance check with a non-empty date is
strictly before `today`. -/
def computeCompliance (r : Resource) (today : DateT) : Bool :=
  if r.rtype != RType.VEHICLE then
    true
  else
    !(r.maintenance.any (fun c => checkExpired c today))

/-- One entry of the resource-selection dropdown. -/
structure ResourceOption where
  rid : String
  label : String
  disabled : Bool
deriving DecidableEq, Repr

/-- Modelled from the spec: the resource-selection list shown when
booking (§4.1; the dropdown-building code in `index.html` is not in the
repository).  Every resource is listed; a non-compliant one is labelled
and disabled rather than omitted. -/
def resourceOptions (rs : List Resource) (today : DateT) : List ResourceOption :=
  rs.map (fun r =>
    if computeCompliance r today then
      { rid := r.id, label := r.rname, disabled := false }
    else
      { rid := r.id, label := r.rname ++ " (Non-Compliant)", disabled := true })

/-- Modelled from the spec: the Staff record; `services` lists the
service references the member offers (§4.3 phase 2 needs it). -/
structure Staff where
  id : String
  sname : String
  services : List String
deriving DecidableEq, Repr

/-- A candidate passes the compliance gate iff every resource it
references resolves to a compliant resource (an unknown reference is a
missing required reference, so it fails). -/
def candCompliant (c : Booking) (rs : List Resource) (today : DateT) : Bool :=
  c.resourceIds.all (fun rid =>
    match rs.find? (fun r => r.id == rid) with
    | none => false
    | some r => computeCompliance r today)

/-- One suggestion: a start time plus the staff / resource assignment
that makes the candidate conflict-free. -/
structure Suggestion where
  time : Nat
  staffId : String
  resourceIds : List String
deriving DecidableEq, Repr

/-- Rebuild the candidate booking a suggestion stands for: shifted to
the suggested start (keeping the duration) with the suggested staff and
resources. -/
def applySuggestion (c : Booking) (s : Suggestion) : Booking :=
  { c with
    startTime := s.time
    endTime := s.time + (c.endTime - c.startTime)
    staffId := s.staffId
    resourceIds := s.resourceIds }

/-- A slot is feasible iff it has no conflicts and passes compliance. -/
def slotOk (c : Booking) (allB : List Booking) (rs : List Resource)
    (today : DateT) : Bool :=
  (findConflicts c allB).isEmpty && candCompliant c rs today

/-- Modelled from the spec: §4.3 phase 1 — same date, staff and
resources; scan forward in duration-sized increments from the
candidate's end time up to the end of the business day (`dayEnd`,
minutes since midnight), keeping feasible slots. -/
def phase1Slots (c : Booking) (dayEnd : Nat) : List Nat :=
  if c.endTime - c.startTime == 0 then
    []
  else
    (List.range ((dayEnd - c.endTime) / (c.endTime - c.startTime))).map
      (fun i => c.endTime + i * (c.endTime - c.startTime))

/-- Modelled from the spec: §4.3 phase 1 — same date, staff and
resources, over the forward scan of `phase1Slots`, keeping feasible
slots. -/
def phase1 (c : Booking) (allB : List Booking) (rs : List Resource)
    (today : DateT) (dayEnd : Nat) : List Suggestion :=
  ((phase1Slots c dayEnd).map (fun t =>
      { time := t, staffId := c.staffId, resourceIds := c.resourceIds })).filter
    (fun s => slotOk (applySuggestion c s) allB rs today)

/-- Modelled from the spec: §4.3 phase 2 — same date and time window,
alternate staff members who offer the requested service and are
conflict-free. -/
def phase2 (c : Booking) (allB : List Booking) (rs : List Resource)
    (staffList : List Staff) (today : DateT) : List Suggestion :=
  ((staffList.filter (fun st =>
      st.id != c.staffId && st.services.contains c.serviceId)).map
    (fun st =>
      { time := c.startTime, staffId := st.id, resourceIds := c.resourceIds })).filter
    (fun s => slotOk (applySuggestion c s) allB rs today)

/-- The resource type the candidate asks for: the type of its first
resolved resource reference. -/
def candType (c : Booking) (rs : List Resource) : Option RType :=
  match c.resourceIds with
  | [] => none
  | rid :: _ =>
    match rs.find? (fun r => r.id == rid) with
    | none => none
    | some r => some r.rtype

/-- Modelled from the spec: §4.3 phase 3 — same date and time window,
alternate compliant resources of the same type, conflict-free. -/
def phase3 (c : Booking) (allB : List Booking) (rs : List Resource)
    (today : DateT) : List Suggestion :=
  ((rs.filter (fun r =>
      !(c.resourceIds.contains r.id)
        && candType c rs == some r.rtype
        && computeCompliance r today)).map
    (fun r =>
      { time := c.startTime, staffId := c.staffId, resourceIds := [r.id] })).filter
    (fun s => slotOk (applySuggestion c s) allB rs today)

/-- Deduplication worker: drop elements already seen, keeping the first
occurrence of each. -/
def dedupGo : List Suggestion → List Suggestion → List Suggestion
  | [], _ => []
  | a :: l, seen =>
    if seen.contains a then dedupGo l seen else a :: dedupGo l (a :: seen)

/-- Deduplicate keeping the first occurrence of each element. -/
def dedupFirst (l : List Suggestion) : List Suggestion :=
  dedupGo l []

/-- Modelled from the spec: `suggest(candidate, allBookings, maxResults)`
(§4.3; the implementation in `index.html` is not in the repository).
Phases in priority order, deduplicated, truncated to `maxResults`. -/
def suggest (c : Booking) (allB : List Booking) (rs : List Resource)
    (staffList : List Staff) (today : DateT) (dayEnd : Nat)
    (maxResults : Nat) : List Suggestion :=
  (dedupFirst (phase1 c allB rs today dayEnd
      ++ phase2 c allB rs staffList today
      ++ phase3 c allB rs today)).take maxResults

/-- Human-readable reason tag carried by a conflict error (§7). -/
inductive ConflictReason where
  | STAFF_BUSY
  | RESOURCE_BUSY
deriving DecidableEq, Repr

/-- Typed engine errors (§7): validation, compliance, or conflict with
the conflicting bookings and a reason tag. -/
inductive EngError where
  | validationErr (msg : String)
  | complianceErr (rids : List String)
  | conflictErr (reason : ConflictReason) (conflicts : List Booking)
deriving DecidableEq, Repr

/-- A waiting-list entry (§3).  `staffPref = none` and
`resourcePref = []` embed "no preference"; `addedAt` is the creation
timestamp used for the FIFO tie-break. -/
structure WaitingEntry where
  id : String
  date : String
  startTime : Nat
  endTime : Nat
  customerId : String
  staffPref : Option String
  resourcePref : List String
  addedAt : Nat
deriving DecidableEq, Repr

/-- Process-wide settings (§3). -/
structure Settings where
  firstDayOfWeek : String
  autoNotifyWaitingList : Bool
deriving DecidableEq, Repr

/-- A notification event `{customer, matched entry, freed slot}` emitted
for the external channel (§4.4). -/
structure NotificationEvent where
  customerId : String
  entryId : String
  freedBookingId : String
deriving DecidableEq, Repr

/-- One mileage-ledger entry: a distance attributed to a vehicle and to
the completion date of one booking (§4.5). -/
structure LedgerEntry where
  vehicleId : String
  date : String
  distance : Nat
  bookingId : String
deriving DecidableEq, Repr

/-- The Booking Store's canonical collections (§3, §6). -/
structure Store where
  bookings : List Booking
  resources : List Resource
  staffList : List Staff
  waitingList : List WaitingEntry
  ledger : List LedgerEntry
  settings : Settings
deriving Repr

/-- Basic candidate validation (§3, §7): well-formed half-open interval
and all required references present — one customer, one staff, one
service, and one or more resource references. -/
def validBooking (c : Booking) : Bool :=
  c.startTime < c.endTime && c.customerId != "" && c.staffId != ""
    && c.serviceId != "" && !c.resourceIds.isEmpty

/-- Modelled from the spec: `saveBooking(candidate)` (§6, §7; the
implementation in `index.html` is not in the repository).  Validation —
malformed interval or missing required reference, including a resource
reference that does not resolve in the store, is a `ValidationError`
before any mutation — then the compliance gate, then the conflict
detector; on success the booking is appended to the store. -/
def saveBooking (c : Booking) (st : Store) (today : DateT) :
    Except EngError Store :=
  if !validBooking c then
    Except.error (EngError.validationErr "invalid booking")
  else if !(c.resourceIds.all (fun rid =>
      (st.resources.find? (fun r => r.id == rid)).isSome)) then
    Except.error (EngError.validationErr "missing resource reference")
  else if !candCompliant c st.resources today then
    Except.error (EngError.complianceErr
      (c.resourceIds.filter (fun rid =>
        !((st.resources.find? (fun r => r.id == rid)).any
            (fun r => computeCompliance r today)))))
  else
    match findConflicts c st.bookings with
    | [] => Except.ok { st with bookings := st.bookings ++ [c] }
    | conflicts =>
      let reason :=
        if conflicts.any (fun b => b.staffId == c.staffId) then
          ConflictReason.STAFF_BUSY
        else
          ConflictReason.RESOURCE_BUSY
      Except.error (EngError.conflictErr reason conflicts)

/-- A waiting entry matches a freed slot iff same date, identical start
and end times, and each stated preference equals the freed booking's
assignment (§4.4). -/
def entryMatches (e : WaitingEntry) (b : Booking) : Bool :=
  e.date == b.date
    && e.startTime == b.startTime
    && e.endTime == b.endTime
    && (match e.staffPref with
        | none => true
        | some sid => sid == b.staffId)
    && (e.resourcePref.isEmpty || e.resourcePref == b.resourceIds)

/-- First entry with the minimum `addedAt` (FIFO with identity-order
tie-break): a later entry replaces the running best only when strictly
earlier. -/
def pickEarliest : List WaitingEntry → Option WaitingEntry
  | [] => none
  | e :: l =>
    match pickEarliest l with
    | none => some e
    | some f => if f.addedAt < e.addedAt then some f else some e

/-- The single waiting entry served for a freed slot, if any. -/
def selectMatch (wl : List WaitingEntry) (b : Booking) : Option WaitingEntry :=
  pickEarliest (wl.filter (fun e => entryMatches e b))

/-- Modelled from the spec: `checkWaitingListFor(freedBooking,
waitingList, settings)` (§4.4; the implementation in `index.html` is not
in the repository).  Gated by `autoNotifyWaitingList`; notifies at most
one matching entry and removes it from the list. -/
def checkWaitingListFor (b : Booking) (wl : List WaitingEntry)
    (s : Settings) : List NotificationEvent × List WaitingEntry :=
  if !s.autoNotifyWaitingList then
    ([], wl)
  else
    match selectMatch wl b with
    | none => ([], wl)
    | some e =>
      ([{ customerId := e.customerId, entryId := e.id, freedBookingId := b.id }],
       wl.erase e)

/-- Modelled from the spec: `totalDistance(vehicle?, dateRange?)` (§4.5;
the reporting code in `index.html` is not in the repository).  Sums the
distances of ledger entries matching the optional vehicle and date-range
filters; with no vehicle filter it sums across all vehicles. -/
def totalDistance (ledger : List LedgerEntry) (vehicle : Option String)
    (dateRange : Option (String × String)) : Nat :=
  ((ledger.filter (fun e =>
      (match vehicle with
       | none => true
       | some v => v == e.vehicleId)
        && (match dateRange with
            | none => true
            | some (lo, hi) => lo ≤ e.date && e.date ≤ hi))).map
    (fun e => e.distance)).sum

/-- Modelled from the spec: `completeBooking(bookingId, startReading,
endReading)` (§4.5, §6; the implementation in `index.html` is not in the
repository).  Validates (reversed readings are a validation error before
any mutation), transitions the booking to Completed, and when the
booking references a vehicle appends a ledger entry and advances that
vehicle's odometer to `endReading`. -/
def completeBooking (st : Store) (bid : String) (startReading endReading : Nat) :
    Except EngError Store :=
  match st.bookings.find? (fun b => b.id == bid) with
  | none => Except.error (EngError.validationErr "booking not found")
  | some b =>
    if endReading < startReading then
      Except.error (EngError.validationErr "reversed odometer readings")
    else if b.status != Status.Scheduled then
      Except.error (EngError.validationErr "booking not Scheduled")
    else
      let bookings := st.bookings.map (fun x =>
        if x.id == bid then { x with status := Status.Completed } else x)
      match (st.resources.filter
          (fun r => r.rtype == RType.VEHICLE && b.resourceIds.contains r.id)) with
      | [] => Except.ok { st with bookings := bookings }
      | v :: _ =>
        Except.ok
          { st with
            bookings := bookings
            ledger := st.ledger
              ++ [{ vehicleId := v.id, date := b.date,
                    distance := endReading - startReading, bookingId := b.id }]
            resources := st.resources.map (fun r =>
              if r.id == v.id then { r with mileage := endReading } else r) }

/-! Concrete fixtures mirroring the repository's verification scenarios
(`jules-scratch/verification/*.py`): staff_1 / resource_1, an existing
Scheduled booking at 10:00–11:00, a waiting-list entry at 14:00–15:00,
an expired vehicle, and a vehicle completion 60000 → 60300. -/

/-- Today, for the compliance examples: 2025-06-01. -/
def exToday : DateT := { year := 2025, month := 6, day := 1 }

def exStaff1 : Staff :=
  { id := "staff_1", sname := "Staff One", services := ["service_lesson_1"] }

def exResource1 : Resource :=
  { id := "resource_1", rname := "Resource One", rtype := RType.OTHER,
    maintenance := [], mileage := 0 }

/-- The expired vehicle of `verify_compliance_feature.py`: mot 2024-01-01,
tax 2025-01-01, service empty. -/
def exExpiredVehicle : Resource :=
  { id := "resource_test_expired", rname := "Expired Test Car",
    rtype := RType.VEHICLE,
    maintenance :=
      [ { name := "mot", date := some { year := 2024, month := 1, day := 1 } },
        { name := "tax", date := some { year := 2025, month := 1, day := 1 } },
        { name := "service", date := none } ],
    mileage := 0 }

/-- Existing Scheduled booking staff_1 / resource_1 at 10:00–11:00. -/
def exExisting : Booking :=
  { id := "booking_conflict_test", date := "2025-06-02",
    startTime := 600, endTime := 660,
    customerId := "customer_1", staffId := "staff_1",
    resourceIds := ["resource_1"], serviceId := "service_lesson_1",
    status := Status.Scheduled }

/-- Identical candidate slot, proposed as a new booking. -/
def exCandidate : Booking :=
  { exExisting with id := "booking_new" }

def exStore : Store :=
  { bookings := [exExisting], resources := [exResource1],
    staffList := [exStaff1], waitingList := [], ledger := [],
    settings := { firstDayOfWeek := "monday", autoNotifyWaitingList := true } }

/-- A Cancelled booking on the same slot as `exExisting`. -/
def exCancelled : Booking :=
  { exExisting with id := "booking_cancelled", status := Status.Cancelled }

/-- The freed (cancelled) booking of `verify_waiting_list_sms.py`:
14:00–15:00 staff_1 / resource_1. -/
def exFreed : Booking :=
  { id := "booking_to_cancel", date := "2025-06-02",
    startTime := 840, endTime := 900,
    customerId := "customer_2", staffId := "staff_1",
    resourceIds := ["resource_1"], serviceId := "service_lesson_1",
    status := Status.Cancelled }

/-- The matching waiting entry `wl_entry_1` for customer_1. -/
def exEntry : WaitingEntry :=
  { id := "wl_entry_1", date := "2025-06-02",
    startTime := 840, endTime := 900, customerId := "customer_1",
    staffPref := some "staff_1", resourcePref := ["resource_1"],
    addedAt := 100 }

/-- A second freed slot at a different time, unrelated to `exEntry`. -/
def exFreedOther : Booking :=
  { exFreed with id := "booking_other", startTime := 960, endTime := 1020 }

def exSettingsOn : Settings :=
  { firstDayOfWeek := "monday", autoNotifyWaitingList := true }

def exSettingsOff : Settings :=
  { firstDayOfWeek := "monday", autoNotifyWaitingList := false }

/-- The vehicle of `verify_mileage_fixes.py` with baseline odometer 60000. -/
def exCar : Resource :=
  { id := "resource_car_2", rname := "Test Car 2", rtype := RType.VEHICLE,
    maintenance := [], mileage := 60000 }

/-- The 13:00–14:00 booking completed with readings 60000 → 60300. -/
def exMileageBooking : Booking :=
  { id := "booking_mileage_test_2", date := "2025-06-02",
    startTime := 780, endTime := 840,
    customerId := "customer_3", staffId := "staff_1",
    resourceIds := ["resource_car_2"], serviceId := "service_lesson_1",
    status := Status.Scheduled }

def exMileageStore : Store :=
  { bookings := [exMileageBooking], resources := [exCar],
    staffList := [exStaff1], waitingList := [], ledger := [],
    settings := exSettingsOn }

/-- A candidate missing its required one-or-more resource references. -/
def exNoResource : Booking :=
  { exCandidate with resourceIds := [] }

/-- A candidate whose resource reference does not resolve in the store. -/
def exDangling : Booking :=
  { exCandidate with resourceIds := ["resource_missing"] }

/-! Theorems. -/

/-- C1: membership in `findConflicts` is exactly the spec's conjunction
— same date, existing booking Scheduled, staff match or resource-set
intersection, half-open interval overlap — and consequently a candidate
occupying the identical slot as a Cancelled booking saves with no
conflict. -/
theorem conflictRule :
    (∀ (cand b : Booking) (l : List Booking),
      b ∈ findConflicts cand l ↔
        b ∈ l ∧ cand.date = b.date ∧ b.status = Status.Scheduled ∧
          (cand.staffId = b.staffId ∨
            ∃ r, r ∈ cand.resourceIds ∧ r ∈ b.resourceIds) ∧
          cand.startTime < b.endTime ∧ b.startTime < cand.endTime) ∧
    findConflicts exCandidate [exCancelled] = [] ∧
    saveBooking exCandidate { exStore with bookings := [exCancelled] } exToday
      = Except.ok { exStore with bookings := [exCancelled, exCandidate] } := by
  refine ⟨mem_findConflicts_iff, rfl, rfl⟩

/-- C9 counterexample: `findConflicts` is not symmetric for arbitrary
bookings — a Cancelled candidate reports a conflict with a Scheduled
booking on the same slot, but not conversely. -/
theorem findConflictsSymmetry_cex :
    ¬ (∀ (a b : Booking) (l la : List Booking),
        b ∈ findConflicts a l → a ∈ la → a ∈ findConflicts b la) := by
  intro h
  exact absurd
    (h exCancelled exExisting [exExisting] [exCancelled] (by decide) (by decide))
    (by decide)

/-- C9 amended: `findConflicts` is symmetric whenever the first booking
is itself Scheduled — if Scheduled A as candidate reports B as a
conflict, then B as candidate against any set containing A reports A. -/
theorem findConflictsSymmetric (a b : Booking) (l la : List Booking)
    (ha : a.status = Status.Scheduled) (hb : b ∈ findConflicts a l)
    (hmem : a ∈ la) : a ∈ findConflicts b la := by
  rcases (mem_findConflicts_iff a b l).mp hb with ⟨-, hdate, -, hshare, h1, h2⟩
  refine (mem_findConflicts_iff b a la).mpr ⟨hmem, hdate.symm, ha, ?_, h2, h1⟩
  rcases hshare with h | ⟨r, hr1, hr2⟩
  · exact Or.inl h.symm
  · exact Or.inr ⟨r, hr2, hr1⟩

/-- C9 witness: two Scheduled bookings on the same slot conflict in both
directions. -/
theorem findConflictsSymmetric_witness :
    exExisting.status = Status.Scheduled ∧
    exCandidate ∈ findConflicts exExisting [exCandidate] ∧
    exExisting ∈ [exExisting] ∧
    exExisting ∈ findConflicts exCandidate [exExisting] :=
  ⟨by decide, by decide, by decide,
    findConflictsSymmetric exExisting exCandidate [exCandidate] [exExisting]
      (by decide) (by decide) (by decide)⟩

/-- An expired check is one whose (non-empty) date is strictly before
today. -/
theorem checkExpired_eq_true (c : MaintCheck) (today : DateT) :
    checkExpired c today = true ↔
      ∃ d, c.date = some d ∧ dateLt d today = true := by
  cases h : c.date with
  | none => simp [checkExpired, h]
  | some d => simp [checkExpired, h]

/-- C5: a non-vehicle resource is always compliant; a vehicle is
non-compliant iff some maintenance check with a non-empty date is
strictly before today; the expired test vehicle (mot 2024-01-01) is
non-compliant against today = 2025-06-01. -/
theorem complianceCorrect :
    (∀ (r : Resource) (today : DateT),
      r.rtype ≠ RType.VEHICLE → computeCompliance r today = true) ∧
    (∀ (r : Resource) (today : DateT),
      r.rtype = RType.VEHICLE →
        (computeCompliance r today = false ↔
          ∃ c ∈ r.maintenance, ∃ d, c.date = some d ∧ dateLt d today = true)) ∧
    computeCompliance exExpiredVehicle exToday = false := by
  refine ⟨?_, ?_, by decide⟩
  · intro r today h
    simp [computeCompliance, bne_iff_ne, h]
  · intro r today h
    simp only [computeCompliance, h, bne_self_eq_false, Bool.false_eq_true,
      if_false, Bool.not_eq_false', List.any_eq_true, checkExpired_eq_true]

/-- C5 witness: the non-vehicle `exResource1` is compliant, and the
expired vehicle's non-compliance is produced by its mot check. -/
theorem complianceCorrect_witness :
    exResource1.rtype ≠ RType.VEHICLE ∧
    computeCompliance exResource1 exToday = true ∧
    exExpiredVehicle.rtype = RType.VEHICLE ∧
    (computeCompliance exExpiredVehicle exToday = false ↔
      ∃ c ∈ exExpiredVehicle.maintenance,
        ∃ d, c.date = some d ∧ dateLt d exToday = true) :=
  ⟨by decide, complianceCorrect.1 exResource1 exToday (by decide),
    by decide, complianceCorrect.2.1 exExpiredVehicle exToday (by decide)⟩

/-- C6: the resource-selection list keeps every resource — its length
equals the resource collection's and each resource appears, a
non-compliant one carried as a disabled entry, never omitted. -/
theorem resourceListed :
    ∀ (rs : List Resource) (today : DateT),
      (resourceOptions rs today).length = rs.length ∧
      ∀ r ∈ rs, ∃ o ∈ resourceOptions rs today,
        o.rid = r.id ∧ o.disabled = !(computeCompliance r today) := by
  intro rs today
  refine ⟨List.length_map _ _, ?_⟩
  intro r hr
  by_cases h : computeCompliance r today = true
  · refine ⟨{ rid := r.id, label := r.rname, disabled := false }, ?_, rfl, by simp [h]⟩
    simp only [resourceOptions, List.mem_map]
    exact ⟨r, hr, by simp [h]⟩
  · refine ⟨{ rid := r.id, label := r.rname ++ " (Non-Compliant)", disabled := true },
      ?_, rfl, by simp [Bool.eq_false_iff.mpr h]⟩
    simp only [resourceOptions, List.mem_map]
    exact ⟨r, hr, by simp [h]⟩

/-- C6 witness: the expired vehicle appears in the selection list built
over both fixture resources, as a disabled entry. -/
theorem resourceListed_witness :
    exExpiredVehicle ∈ [exResource1, exExpiredVehicle] ∧
    ∃ o ∈ resourceOptions [exResource1, exExpiredVehicle] exToday,
      o.rid = exExpiredVehicle.id ∧
      o.disabled = !(computeCompliance exExpiredVehicle exToday) :=
  ⟨by decide,
    (resourceListed [exResource1, exExpiredVehicle] exToday).2
      exExpiredVehicle (by decide)⟩

/-- The function `pickEarliest` returns `none` only on the empty list. -/
theorem pickEarliest_eq_none (l : List WaitingEntry) :
    pickEarliest l = none ↔ l = [] := by
  cases l with
  | nil => simp [pickEarliest]
  | cons e l =>
    simp only [pickEarliest]
    cases h : pickEarliest l with
    | none => simp
    | some f => by_cases hf : f.addedAt < e.addedAt <;> simp [hf]

/-- The function `pickEarliest` returns an element of its list. -/
theorem pickEarliest_mem : ∀ (l : List WaitingEntry) (e : WaitingEntry),
    pickEarliest l = some e → e ∈ l := by
  intro l
  induction l with
  | nil => intro e h; simp [pickEarliest] at h
  | cons a l ih =>
    intro e h
    simp only [pickEarliest] at h
    cases hl : pickEarliest l with
    | none =>
      simp only [hl] at h
      cases h
      exact List.mem_cons_self _ _
    | some f =>
      simp only [hl] at h
      by_cases hf : f.addedAt < a.addedAt
      · rw [if_pos hf] at h
        cases h
        exact List.mem_cons_of_mem _ (ih _ hl)
      · rw [if_neg hf] at h
        cases h
        exact List.mem_cons_self _ _

/-- The function `pickEarliest` minimises `addedAt`. -/
theorem pickEarliest_min : ∀ (l : List WaitingEntry) (e : WaitingEntry),
    pickEarliest l = some e → ∀ x ∈ l, e.addedAt ≤ x.addedAt := by
  intro l
  induction l with
  | nil => intro e h; simp [pickEarliest] at h
  | cons a l ih =>
    intro e h x hx
    simp only [pickEarliest] at h
    cases hl : pickEarliest l with
    | none =>
      simp only [hl] at h
      cases h
      rcases List.mem_cons.mp hx with hx | hx
      · exact hx ▸ Nat.le_refl _
      · rw [(pickEarliest_eq_none l).mp hl] at hx
        exact absurd hx (List.not_mem_nil x)
    | some f =>
      simp only [hl] at h
      by_cases hf : f.addedAt < a.addedAt
      · rw [if_pos hf] at h
        cases h
        rcases List.mem_cons.mp hx with hx | hx
        · exact hx ▸ Nat.le_of_lt hf
        · exact ih _ hl x hx
      · rw [if_neg hf] at h
        cases h
        rcases List.mem_cons.mp hx with hx | hx
        · exact hx ▸ Nat.le_refl _
        · exact Nat.le_trans (Nat.le_of_not_lt hf) (ih _ hl x hx)

/-- Identity-order tie-break: the element `pickEarliest` selects is the
FIRST of the list attaining the minimal `addedAt` — everything before it
is strictly later-added. -/
theorem pickEarliest_first : ∀ (l : List WaitingEntry) (e : WaitingEntry),
    pickEarliest l = some e →
    ∃ l1 l2, l = l1 ++ e :: l2 ∧ ∀ x ∈ l1, e.addedAt < x.addedAt := by
  intro l
  induction l with
  | nil => intro e h; simp [pickEarliest] at h
  | cons a l ih =>
    intro e h
    simp only [pickEarliest] at h
    cases hl : pickEarliest l with
    | none =>
      simp only [hl] at h
      cases h
      exact ⟨[], l, rfl, by intro x hx; exact absurd hx (List.not_mem_nil x)⟩
    | some f =>
      simp only [hl] at h
      by_cases hf : f.addedAt < a.addedAt
      · rw [if_pos hf] at h
        cases h
        rcases ih _ hl with ⟨l1, l2, heq, hgt⟩
        refine ⟨a :: l1, l2, by rw [heq, List.cons_append], ?_⟩
        intro x hx
        rcases List.mem_cons.mp hx with hx | hx
        · exact hx ▸ hf
        · exact hgt x hx
      · rw [if_neg hf] at h
        cases h
        exact ⟨[], l, rfl, by intro x hx; exact absurd hx (List.not_mem_nil x)⟩

/-- What a successful `selectMatch` guarantees: the entry is a matching
member of the list with minimal `addedAt` among matches. -/
theorem selectMatch_spec (wl : List WaitingEntry) (b : Booking)
    (e : WaitingEntry) (h : selectMatch wl b = some e) :
    e ∈ wl ∧ entryMatches e b = true ∧
      ∀ x ∈ wl, entryMatches x b = true → e.addedAt ≤ x.addedAt := by
  have hmem := pickEarliest_mem _ _ h
  have hmin := pickEarliest_min _ _ h
  rcases List.mem_filter.mp hmem with ⟨h1, h2⟩
  exact ⟨h1, h2, fun x hx hmx => hmin x (List.mem_filter.mpr ⟨hx, hmx⟩)⟩

/-- If some entry matches, `selectMatch` succeeds. -/
theorem selectMatch_isSome (wl : List WaitingEntry) (b : Booking)
    (h : ∃ e ∈ wl, entryMatches e b = true) :
    ∃ e, selectMatch wl b = some e := by
  rcases h with ⟨e, he, hm⟩
  cases hsel : selectMatch wl b with
  | some f => exact ⟨f, rfl⟩
  | none =>
    have := (pickEarliest_eq_none _).mp hsel
    have : e ∈ (List.nil : List WaitingEntry) :=
      this ▸ List.mem_filter.mpr ⟨he, hm⟩
    exact absurd this (List.not_mem_nil e)

/-- C3: with auto-notify on and at least one matching entry, the
waiting-list check notifies exactly one entry — a matching member with
minimal `addedAt`, the first such in list (identity) order — removes it
from the list, and the removed entry can never be selected again from
the resulting list for any later freed slot.  (`wl.Nodup` embeds the
data-model invariant that waiting entries are distinct records.) -/
theorem waitingListNotify :
    ∀ (b : Booking) (wl : List WaitingEntry) (s : Settings),
      s.autoNotifyWaitingList = true →
      wl.Nodup →
      (∃ e ∈ wl, entryMatches e b = true) →
      ∃ e, selectMatch wl b = some e ∧
        e ∈ wl ∧ entryMatches e b = true ∧
        (∀ x ∈ wl, entryMatches x b = true → e.addedAt ≤ x.addedAt) ∧
        (∃ l1 l2, wl.filter (fun x => entryMatches x b) = l1 ++ e :: l2 ∧
          ∀ x ∈ l1, e.addedAt < x.addedAt) ∧
        (checkWaitingListFor b wl s).1
          = [{ customerId := e.customerId, entryId := e.id,
               freedBookingId := b.id }] ∧
        (checkWaitingListFor b wl s).2 = wl.erase e ∧
        (∀ bk : Booking, selectMatch ((checkWaitingListFor b wl s).2) bk ≠ some e) := by
  intro b wl s hauto hnd hex
  rcases selectMatch_isSome wl b hex with ⟨e, hsel⟩
  rcases selectMatch_spec wl b e hsel with ⟨hmem, hmatch, hmin⟩
  have hout : checkWaitingListFor b wl s
      = ([{ customerId := e.customerId, entryId := e.id,
            freedBookingId := b.id }], wl.erase e) := by
    simp [checkWaitingListFor, hauto, hsel]
  refine ⟨e, hsel, hmem, hmatch, hmin,
    pickEarliest_first _ _ hsel, by rw [hout], by rw [hout], ?_⟩
  intro bk hsel2
  have : e ∈ (checkWaitingListFor b wl s).2 :=
    (selectMatch_spec _ bk e hsel2).1
  rw [hout] at this
  exact (List.Nodup.not_mem_erase hnd) this

/-- C3 witness: the SMS scenario — cancelling the 14:00–15:00 booking
notifies the single matching entry `wl_entry_1` and removes it. -/
theorem waitingListNotify_witness :
    exSettingsOn.autoNotifyWaitingList = true ∧
    ([exEntry] : List WaitingEntry).Nodup ∧
    (∃ e ∈ [exEntry], entryMatches e exFreed = true) ∧
    (∃ e, selectMatch [exEntry] exFreed = some e ∧
      e ∈ [exEntry] ∧ entryMatches e exFreed = true ∧
      (∀ x ∈ [exEntry], entryMatches x exFreed = true → e.addedAt ≤ x.addedAt) ∧
      (∃ l1 l2,
        ([exEntry] : List WaitingEntry).filter (fun x => entryMatches x exFreed)
          = l1 ++ e :: l2 ∧ ∀ x ∈ l1, e.addedAt < x.addedAt) ∧
      (checkWaitingListFor exFreed [exEntry] exSettingsOn).1
        = [{ customerId := e.customerId, entryId := e.id,
             freedBookingId := exFreed.id }] ∧
      (checkWaitingListFor exFreed [exEntry] exSettingsOn).2
        = ([exEntry] : List WaitingEntry).erase e ∧
      (∀ bk : Booking,
        selectMatch ((checkWaitingListFor exFreed [exEntry] exSettingsOn).2) bk
          ≠ some e)) :=
  ⟨rfl, by decide, ⟨exEntry, by decide, by decide⟩,
    waitingListNotify exFreed [exEntry] exSettingsOn rfl (by decide)
      ⟨exEntry, by decide, by decide⟩⟩

/-- C4: the waiting-list check is a no-op — emits nothing and leaves the
list untouched — when auto-notify is off, and likewise when no entry
matches the freed slot. -/
theorem waitingListNoop :
    ∀ (b : Booking) (wl : List WaitingEntry) (s : Settings),
      (s.autoNotifyWaitingList = false → checkWaitingListFor b wl s = ([], wl)) ∧
      ((∀ e ∈ wl, entryMatches e b = false) →
        checkWaitingListFor b wl s = ([], wl)) := by
  intro b wl s
  constructor
  · intro h
    simp [checkWaitingListFor, h]
  · intro h
    have hfil : wl.filter (fun e => entryMatches e b) = [] :=
      List.filter_eq_nil_iff.mpr (fun e he => by simp [h e he])
    have hsel : selectMatch wl b = none := by
      simp [selectMatch, hfil, pickEarliest]
    cases hauto : s.autoNotifyWaitingList with
    | false => simp [checkWaitingListFor, hauto]
    | true => simp [checkWaitingListFor, hauto, hsel]

/-- C4 witness: with auto-notify off the matching entry is left alone;
with auto-notify on but a non-matching freed slot nothing happens
either. -/
theorem waitingListNoop_witness :
    (exSettingsOff.autoNotifyWaitingList = false ∧
      checkWaitingListFor exFreed [exEntry] exSettingsOff = ([], [exEntry])) ∧
    ((∀ e ∈ [exEntry], entryMatches e exFreedOther = false) ∧
      checkWaitingListFor exFreedOther [exEntry] exSettingsOn = ([], [exEntry])) :=
  ⟨⟨rfl, (waitingListNoop exFreed [exEntry] exSettingsOff).1 rfl⟩,
    ⟨by decide,
      (waitingListNoop exFreedOther [exEntry] exSettingsOn).2 (by decide)⟩⟩

/-- The deduplication worker only drops elements: its result is an
in-order sublist of the input. -/
theorem dedupGo_sublist : ∀ (l seen : List Suggestion),
    List.Sublist (dedupGo l seen) l := by
  intro l
  induction l with
  | nil => intro seen; exact List.Sublist.refl _
  | cons a l ih =>
    intro seen
    by_cases h : seen.contains a = true
    · simp only [dedupGo, h, if_true]
      exact (ih seen).trans (List.sublist_cons_self a l)
    · simp only [dedupGo, h, if_false]
      exact List.Sublist.cons₂ a (ih (a :: seen))

/-- Deduplication only drops elements: the result is an in-order
sublist of the input. -/
theorem dedupFirst_sublist (l : List Suggestion) :
    List.Sublist (dedupFirst l) l :=
  dedupGo_sublist l []

/-- The suggestion list is an in-order sublist of the three phases in
priority order. -/
theorem suggest_sublist (c : Booking) (allB : List Booking)
    (rs : List Resource) (sl : List Staff) (today : DateT)
    (dayEnd maxResults : Nat) :
    List.Sublist (suggest c allB rs sl today dayEnd maxResults)
      (phase1 c allB rs today dayEnd ++ phase2 c allB rs sl today
        ++ phase3 c allB rs today) :=
  (List.take_sublist _ _).trans (dedupFirst_sublist _)

/-- Every member of any phase passes the feasibility re-check. -/
theorem mem_phases_slotOk (c : Booking) (allB : List Booking)
    (rs : List Resource) (sl : List Staff) (today : DateT)
    (dayEnd : Nat) (s : Suggestion)
    (h : s ∈ phase1 c allB rs today dayEnd ++ phase2 c allB rs sl today
        ++ phase3 c allB rs today) :
    slotOk (applySuggestion c s) allB rs today = true := by
  rcases List.mem_append.mp h with h | h
  · rcases List.mem_append.mp h with h | h
    · simp only [phase1, List.mem_filter] at h
      exact h.2
    · simp only [phase2, List.mem_filter] at h
      exact h.2
  · simp only [phase3, List.mem_filter] at h
    exact h.2

/-- The phase-1 scan times are strictly increasing. -/
theorem phase1Slots_sorted (c : Booking) (dayEnd : Nat) :
    (phase1Slots c dayEnd).Pairwise (· < ·) := by
  unfold phase1Slots
  by_cases h : c.endTime - c.startTime = 0
  · simp [h]
  · have hb : ((c.endTime - c.startTime) == 0) = false := by
      simp [h]
    rw [hb]
    simp only [Bool.false_eq_true, if_false]
    refine (List.pairwise_lt_range _).map _ ?_
    intro a b hab
    exact Nat.add_lt_add_left
      ((Nat.mul_lt_mul_right (Nat.pos_of_ne_zero h)).mpr hab) _

/-- Phase-1 suggestions come out in strictly increasing time order. -/
theorem phase1_sorted (c : Booking) (allB : List Booking)
    (rs : List Resource) (today : DateT) (dayEnd : Nat) :
    (phase1 c allB rs today dayEnd).Pairwise (fun a b => a.time < b.time) := by
  unfold phase1
  refine List.Pairwise.sublist (List.filter_sublist _) ?_
  exact (phase1Slots_sorted c dayEnd).map _ (fun a b hab => hab)

/-- C2: `suggest` is bounded by `maxResults`; every returned suggestion,
applied to the candidate, has no conflicts and passes compliance; the
output preserves phase-priority order (it is an in-order sublist of the
three phases, and phase 1 is in increasing time order); and on the
fixture scenario `saveBooking` reports `STAFF_BUSY` while `suggest`
returns exactly three entries, the first at 11:00 (660 minutes) with the
same staff and resource. -/
theorem suggestionsSound :
    (∀ (c : Booking) (allB : List Booking) (rs : List Resource)
      (sl : List Staff) (today : DateT) (dayEnd maxResults : Nat),
      (suggest c allB rs sl today dayEnd maxResults).length ≤ maxResults ∧
      (∀ s ∈ suggest c allB rs sl today dayEnd maxResults,
        findConflicts (applySuggestion c s) allB = [] ∧
        candCompliant (applySuggestion c s) rs today = true) ∧
      List.Sublist (suggest c allB rs sl today dayEnd maxResults)
        (phase1 c allB rs today dayEnd ++ phase2 c allB rs sl today
          ++ phase3 c allB rs today) ∧
      (phase1 c allB rs today dayEnd).Pairwise (fun a b => a.time < b.time)) ∧
    saveBooking exCandidate exStore exToday
      = Except.error (EngError.conflictErr ConflictReason.STAFF_BUSY [exExisting]) ∧
    suggest exCandidate [exExisting] [exResource1] [exStaff1] exToday 1080 3
      = [{ time := 660, staffId := "staff_1", resourceIds := ["resource_1"] },
         { time := 720, staffId := "staff_1", resourceIds := ["resource_1"] },
         { time := 780, staffId := "staff_1", resourceIds := ["resource_1"] }] := by
  refine ⟨?_, rfl, rfl⟩
  intro c allB rs sl today dayEnd maxResults
  refine ⟨List.length_take_le _ _, ?_, suggest_sublist c allB rs sl today dayEnd
    maxResults, phase1_sorted c allB rs today dayEnd⟩
  intro s hs
  have hok := mem_phases_slotOk c allB rs sl today dayEnd s
    ((suggest_sublist c allB rs sl today dayEnd maxResults).subset hs)
  simp only [slotOk, Bool.and_eq_true] at hok
  exact ⟨List.isEmpty_iff.mp hok.1, hok.2⟩

/-- C2 witness: the first fixture suggestion (11:00, staff_1,
resource_1) is itself conflict-free and compliant. -/
theorem suggestionsSound_witness :
    { time := 660, staffId := "staff_1", resourceIds := ["resource_1"] }
        ∈ suggest exCandidate [exExisting] [exResource1] [exStaff1] exToday 1080 3 ∧
    findConflicts
        (applySuggestion exCandidate
          { time := 660, staffId := "staff_1", resourceIds := ["resource_1"] })
        [exExisting] = [] ∧
    candCompliant
        (applySuggestion exCandidate
          { time := 660, staffId := "staff_1", resourceIds := ["resource_1"] })
        [exResource1] exToday = true :=
  ⟨by decide,
    (suggestionsSound.1 exCandidate [exExisting] [exResource1] [exStaff1]
        exToday 1080 3).2.1
      { time := 660, staffId := "staff_1", resourceIds := ["resource_1"] }
      (by decide)⟩

/-- The aggregate `totalDistance` is additive over ledger concatenation. -/
theorem totalDistance_append (l1 l2 : List LedgerEntry) (v : Option String)
    (dr : Option (String × String)) :
    totalDistance (l1 ++ l2) v dr
      = totalDistance l1 v dr + totalDistance l2 v dr := by
  simp [totalDistance, List.filter_append]

/-- An unfiltered `totalDistance` counts a single entry's distance. -/
theorem totalDistance_single (e : LedgerEntry) :
    totalDistance [e] none none = e.distance := by
  simp [totalDistance, List.filter]

/-- C7: completing a Scheduled vehicle booking with consistent readings
appends one ledger entry of distance `endReading - startReading`
attributed to the vehicle and the booking's date, adds exactly that
amount to the unfiltered `totalDistance`, advances every copy of the
vehicle's odometer to `endReading`, and marks the booking Completed. -/
theorem recordCompletionCorrect :
    ∀ (st : Store) (bid : String) (startR endR : Nat) (b : Booking)
      (v : Resource) (vs : List Resource),
      st.bookings.find? (fun x => x.id == bid) = some b →
      b.status = Status.Scheduled →
      startR ≤ endR →
      st.resources.filter
          (fun r => r.rtype == RType.VEHICLE && b.resourceIds.contains r.id)
        = v :: vs →
      ∃ st2, completeBooking st bid startR endR = Except.ok st2 ∧
        st2.ledger = st.ledger
          ++ [{ vehicleId := v.id, date := b.date,
                distance := endR - startR, bookingId := b.id }] ∧
        totalDistance st2.ledger none none
          = totalDistance st.ledger none none + (endR - startR) ∧
        (∀ r ∈ st2.resources, r.id = v.id → r.mileage = endR) ∧
        (∀ x ∈ st2.bookings, x.id = bid → x.status = Status.Completed) := by
  intro st bid startR endR b v vs hfind hstatus hle hfil
  have hnotlt : ¬ endR < startR := Nat.not_lt.mpr hle
  simp only [completeBooking, hfind, hstatus, hfil, bne_self_eq_false,
    Bool.false_eq_true, if_false, hnotlt]
  refine ⟨_, rfl, rfl, ?_, ?_, ?_⟩
  · rw [totalDistance_append, totalDistance_single]
  · intro r hr hid
    rcases List.mem_map.mp hr with ⟨y, hy, rfl⟩
    by_cases h : y.id == v.id
    · simp only [h, if_true]
    · simp only [h, if_false] at hid ⊢
      exact absurd (beq_iff_eq.mpr hid) (by simpa using h)
  · intro x hx hid
    rcases List.mem_map.mp hx with ⟨y, hy, rfl⟩
    by_cases h : y.id == bid
    · simp only [h, if_true]
    · simp only [h, if_false] at hid ⊢
      exact absurd (beq_iff_eq.mpr hid) (by simpa using h)

/-- C7 witness: the fixture completion 60000 → 60300 yields a ledger
distance of 300, `totalDistance` 300, and odometer 60300. -/
theorem recordCompletionCorrect_witness :
    exMileageStore.bookings.find? (fun x => x.id == "booking_mileage_test_2")
        = some exMileageBooking ∧
    exMileageBooking.status = Status.Scheduled ∧
    60000 ≤ 60300 ∧
    exMileageStore.resources.filter
        (fun r => r.rtype == RType.VEHICLE
          && exMileageBooking.resourceIds.contains r.id) = [exCar] ∧
    (∃ st2, completeBooking exMileageStore "booking_mileage_test_2" 60000 60300
        = Except.ok st2 ∧
      st2.ledger = exMileageStore.ledger
        ++ [{ vehicleId := exCar.id, date := exMileageBooking.date,
              distance := 60300 - 60000, bookingId := exMileageBooking.id }] ∧
      totalDistance st2.ledger none none
        = totalDistance exMileageStore.ledger none none + (60300 - 60000) ∧
      (∀ r ∈ st2.resources, r.id = exCar.id → r.mileage = 60300) ∧
      (∀ x ∈ st2.bookings, x.id = "booking_mileage_test_2" →
        x.status = Status.Completed)) :=
  ⟨by decide, rfl, by decide, by decide,
    recordCompletionCorrect exMileageStore "booking_mileage_test_2" 60000 60300
      exMileageBooking exCar [] (by decide) rfl (by decide) (by decide)⟩

/-- An operation that returned a typed error produced no store. -/
theorem error_ne_ok {e : EngError} {x : Except EngError Store}
    (h : x = Except.error e) : ∀ st2, x ≠ Except.ok st2 := by
  intro st2 hok
  rw [h] at hok
  exact Except.noConfusion hok

/-- C8: every malformed request is rejected with a `ValidationError` and
never yields a mutated store — reversed odometer readings, a booking
reference that does not resolve, a candidate with a malformed interval
or with any required reference absent (customer, staff, service, or the
one-or-more resource references of §3), and a candidate whose resource
reference does not resolve in the store. -/
theorem validationRejectsBeforeMutation :
    ∀ (st : Store) (bid : String) (startR endR : Nat),
      (endR < startR →
        (∃ msg, completeBooking st bid startR endR
          = Except.error (EngError.validationErr msg)) ∧
        (∀ st2, completeBooking st bid startR endR ≠ Except.ok st2)) ∧
      (st.bookings.find? (fun b => b.id == bid) = none →
        (∃ msg, completeBooking st bid startR endR
          = Except.error (EngError.validationErr msg)) ∧
        (∀ st2, completeBooking st bid startR endR ≠ Except.ok st2)) ∧
      (∀ (c : Booking) (today : DateT),
        (¬ c.startTime < c.endTime ∨ c.customerId = "" ∨ c.staffId = ""
          ∨ c.serviceId = "" ∨ c.resourceIds = []) →
        (∃ msg, saveBooking c st today
          = Except.error (EngError.validationErr msg)) ∧
        (∀ st2, saveBooking c st today ≠ Except.ok st2)) ∧
      (∀ (c : Booking) (today : DateT) (rid : String),
        rid ∈ c.resourceIds →
        st.resources.find? (fun r => r.id == rid) = none →
        (∃ msg, saveBooking c st today
          = Except.error (EngError.validationErr msg)) ∧
        (∀ st2, saveBooking c st today ≠ Except.ok st2)) := by
  intro st bid startR endR
  refine ⟨?_, ?_, ?_, ?_⟩
  · intro hlt
    have herr : ∃ msg, completeBooking st bid startR endR
        = Except.error (EngError.validationErr msg) := by
      cases hf : st.bookings.find? (fun b => b.id == bid) with
      | none => exact ⟨"booking not found", by simp [completeBooking, hf]⟩
      | some b =>
        exact ⟨"reversed odometer readings",
          by simp [completeBooking, hf, if_pos hlt]⟩
    rcases herr with ⟨m, hm⟩
    exact ⟨⟨m, hm⟩, error_ne_ok hm⟩
  · intro hf
    have hm : completeBooking st bid startR endR
        = Except.error (EngError.validationErr "booking not found") := by
      simp [completeBooking, hf]
    exact ⟨⟨_, hm⟩, error_ne_ok hm⟩
  · intro c today hbad
    have hv : validBooking c = false := by
      rcases hbad with h | h | h | h | h <;> simp [validBooking, h]
    have hm : saveBooking c st today
        = Except.error (EngError.validationErr "invalid booking") := by
      simp [saveBooking, hv]
    exact ⟨⟨_, hm⟩, error_ne_ok hm⟩
  · intro c today rid hmem hfind
    have herr : ∃ msg, saveBooking c st today
        = Except.error (EngError.validationErr msg) := by
      by_cases hv : validBooking c = true
      · have hall : (c.resourceIds.all (fun rid2 =>
            (st.resources.find? (fun r => r.id == rid2)).isSome)) = false := by
          rw [List.all_eq_false]
          exact ⟨rid, hmem, by simp [hfind]⟩
        exact ⟨"missing resource reference", by simp [saveBooking, hv, hall]⟩
      · exact ⟨"invalid booking",
          by simp [saveBooking, Bool.eq_false_iff.mpr hv]⟩
    rcases herr with ⟨m, hm⟩
    exact ⟨⟨m, hm⟩, error_ne_ok hm⟩

/-- C8 witness: reversed readings 60300 → 60000, an unresolvable booking
reference, a candidate with no resource reference, and a candidate with
a dangling resource reference are all rejected as validation errors. -/
theorem validationRejectsBeforeMutation_witness :
    ((60000 : Nat) < 60300 ∧
      (∃ msg, completeBooking exMileageStore "booking_mileage_test_2" 60300 60000
        = Except.error (EngError.validationErr msg)) ∧
      (∀ st2, completeBooking exMileageStore "booking_mileage_test_2" 60300 60000
        ≠ Except.ok st2)) ∧
    (exMileageStore.bookings.find? (fun b => b.id == "missing_booking") = none ∧
      (∃ msg, completeBooking exMileageStore "missing_booking" 60000 60300
        = Except.error (EngError.validationErr msg))) ∧
    (exNoResource.resourceIds = [] ∧
      (∃ msg, saveBooking exNoResource exMileageStore exToday
        = Except.error (EngError.validationErr msg))) ∧
    ("resource_missing" ∈ exDangling.resourceIds ∧
      exMileageStore.resources.find? (fun r => r.id == "resource_missing") = none ∧
      (∃ msg, saveBooking exDangling exMileageStore exToday
        = Except.error (EngError.validationErr msg))) :=
  ⟨⟨by decide,
      ((validationRejectsBeforeMutation exMileageStore "booking_mileage_test_2"
          60300 60000).1 (by decide)).1,
      ((validationRejectsBeforeMutation exMileageStore "booking_mileage_test_2"
          60300 60000).1 (by decide)).2⟩,
    ⟨by decide,
      ((validationRejectsBeforeMutation exMileageStore "missing_booking"
          60000 60300).2.1 (by decide)).1⟩,
    ⟨rfl,
      ((validationRejectsBeforeMutation exMileageStore "missing_booking"
          60000 60300).2.2.1 exNoResource exToday
        (Or.inr (Or.inr (Or.inr (Or.inr rfl))))).1⟩,
    ⟨by decide, by decide,
      ((validationRejectsBeforeMutation exMileageStore "missing_booking"
          60000 60300).2.2.2 exDangling exToday "resource_missing"
        (by decide) (by decide)).1⟩⟩

end MgmtBooking
